import Mathlib

/-!
Shallow embedding of `src/tweepy_twitter_api.py` (the `tweet_scraper`
function and the module-level search invocation).

Modelling conventions:

* A tweepy status object is modelled by `Tweet`.  Attribute access on the
  dynamic Python object may raise `AttributeError`; a required attribute is
  therefore an `Option` field, `none` meaning the attribute is absent, and
  `getAttr` turns an access into an `Except` computation that fails on an
  absent attribute — exactly the Python behaviour of `tweet.user.id` etc.
* `tweet._json` key membership for `"retweeted_status"` (line 132) is the
  Boolean field `json_has_retweeted_status`, kept separate from the
  `retweeted_status` attribute itself so that a present key with an absent
  attribute is expressible.
* `tweet.entities["hashtags"]` inside `try ... except: pass`
  (lines 99-109): the whole read is `entities_hashtags :
  Option (List (Option String))`.  `none` models any failure to reach the
  list (missing `entities` attribute, missing key, non-iterable value); an
  entry `none` models an entry on which `hashtag["text"]` raises.  The
  Python loop appends each text to a local list and a mid-loop exception
  leaves the already-appended prefix in place, which `collectTexts`
  reproduces.  Likewise for `user_mentions` with `"screen_name"`.
* `np.nan`, the empty-marker appended for absent optional values, is
  `Value.nan`; a cell of the output frame is a `Value`.
* Python `None` stored verbatim from `in_reply_to_user_id` /
  `in_reply_to_screen_name` (attributes tweepy always sets, possibly to
  `None`) is kept as an `Option` in the row, copied without transformation.
* The `pandas.DataFrame` built from the column dictionary (line 163) is
  `Frame`: the 23 column names in insertion order plus the rows in
  consumption order; a dict-of-equal-length-lists DataFrame is exactly
  this data.
* The `tweepy.Cursor(api.search_tweets, q=query, tweet_mode=tweet_mode,
  count=count).items(tweet_limit)` call (line 77) is modelled by
  `searchCallOf`, recording which keyword arguments the code passes
  (`none` = keyword not passed), and by truncating the fetched lazy
  sequence with `List.take tweet_limit` for `.items(tweet_limit)`.
-/

/-- A cell value of the output table: the `np.nan` empty-marker, an
integer, a string, a boolean, or a list of strings. -/
inductive Value where
  | nan : Value
  | int : Int → Value
  | str : String → Value
  | bool : Bool → Value
  | strList : List String → Value
deriving DecidableEq, Repr

/-- The `user` sub-object of a status (also of a retweeted status).
`none` = attribute absent (access raises `AttributeError`). -/
structure TweetUser where
  id : Option Int
  screen_name : Option String
  name : Option String
  verified : Option Bool
deriving DecidableEq, Repr

/-- The `retweeted_status` sub-object: the original tweet of a retweet. -/
structure SubTweet where
  id : Option Int
  user : Option TweetUser
  created_at : Option String
  full_text : Option String
  retweet_count : Option Int
  favorite_count : Option Int
deriving DecidableEq, Repr

/-- A raw status object as yielded by the search cursor. -/
structure Tweet where
  user : Option TweetUser
  id : Option Int
  created_at : Option String
  full_text : Option String
  retweet_count : Option Int
  favorite_count : Option Int
  entities_hashtags : Option (List (Option String))
  entities_user_mentions : Option (List (Option String))
  in_reply_to_user_id : Option Int
  in_reply_to_screen_name : Option String
  is_quote_status : Option Bool
  json_has_retweeted_status : Bool
  retweeted_status : Option SubTweet
deriving DecidableEq, Repr

/-- Python attribute access: absent attribute raises `AttributeError`. -/
def getAttr {α : Type} (nm : String) : Option α → Except String α
  | some a => .ok a
  | none => .error ("AttributeError: " ++ nm)

/-- The `for ... append` loop inside `try`: collect entry texts until the
first entry whose lookup raises; the exception is swallowed and the
already-collected prefix survives (lines 99-104 / 112-117). -/
def collectTexts : List (Option String) → List String
  | [] => []
  | some t :: rest => t :: collectTexts rest
  | none :: _ => []

/-- Lines 99-109 (and 112-122): read the annotation list under
`try/except: pass`, then append the list, or `np.nan` when it is empty. -/
def extractEntityList (o : Option (List (Option String))) : Value :=
  let items := match o with
    | none => []
    | some l => collectTexts l
  if items.length = 0 then Value.nan else Value.strList items

/-- One flattened output row: the 23 columns of the `data` dictionary
(lines 48-72), in order. -/
structure Row where
  user_id : Int
  screen_name : String
  name : String
  verified : Bool
  id : Int
  created_at : String
  full_text : String
  retweet_count : Int
  favorite_count : Int
  hashtags : Value
  user_mentions : Value
  in_reply_to_user_id : Option Int
  in_reply_to_screen_name : Option String
  is_quote_status : Bool
  is_retweet : Bool
  retweet_og_id : Value
  retweet_og_author_id : Value
  retweet_og_author_screen_name : Value
  retweet_og_author_name : Value
  retweet_og_date : Value
  retweet_og_full_text : Value
  retweet_og_retweet_count : Value
  retweet_og_favorite_count : Value
deriving DecidableEq, Repr

/-- The loop body, lines 79-160: flatten one raw status into one row.
An absent required attribute propagates as an error (aborting the run);
the hashtag/mention reads never fail; the retweet block is guarded by
`"retweeted_status" in tweet._json.keys()`. -/
def flattenTweet (t : Tweet) : Except String Row := do
  let u ← getAttr "user" t.user
  let u_id ← getAttr "user.id" u.id
  let u_sn ← getAttr "user.screen_name" u.screen_name
  let u_nm ← getAttr "user.name" u.name
  let u_vf ← getAttr "user.verified" u.verified
  let t_id ← getAttr "id" t.id
  let t_ca ← getAttr "created_at" t.created_at
  let t_ft ← getAttr "full_text" t.full_text
  let t_rc ← getAttr "retweet_count" t.retweet_count
  let t_fc ← getAttr "favorite_count" t.favorite_count
  let t_qs ← getAttr "is_quote_status" t.is_quote_status
  if t.json_has_retweeted_status then
    let rs ← getAttr "retweeted_status" t.retweeted_status
    let og_id ← getAttr "retweeted_status.id" rs.id
    let og_u ← getAttr "retweeted_status.user" rs.user
    let og_uid ← getAttr "retweeted_status.user.id" og_u.id
    let og_usn ← getAttr "retweeted_status.user.screen_name" og_u.screen_name
    let og_unm ← getAttr "retweeted_status.user.name" og_u.name
    let og_ca ← getAttr "retweeted_status.created_at" rs.created_at
    let og_ft ← getAttr "retweeted_status.full_text" rs.full_text
    let og_rc ← getAttr "retweeted_status.retweet_count" rs.retweet_count
    let og_fc ← getAttr "retweeted_status.favorite_count" rs.favorite_count
    pure
      { user_id := u_id, screen_name := u_sn, name := u_nm, verified := u_vf,
        id := t_id, created_at := t_ca, full_text := t_ft,
        retweet_count := t_rc, favorite_count := t_fc,
        hashtags := extractEntityList t.entities_hashtags,
        user_mentions := extractEntityList t.entities_user_mentions,
        in_reply_to_user_id := t.in_reply_to_user_id,
        in_reply_to_screen_name := t.in_reply_to_screen_name,
        is_quote_status := t_qs,
        is_retweet := true,
        retweet_og_id := Value.int og_id,
        retweet_og_author_id := Value.int og_uid,
        retweet_og_author_screen_name := Value.str og_usn,
        retweet_og_author_name := Value.str og_unm,
        retweet_og_date := Value.str og_ca,
        retweet_og_full_text := Value.str og_ft,
        retweet_og_retweet_count := Value.int og_rc,
        retweet_og_favorite_count := Value.int og_fc }
  else
    pure
      { user_id := u_id, screen_name := u_sn, name := u_nm, verified := u_vf,
        id := t_id, created_at := t_ca, full_text := t_ft,
        retweet_count := t_rc, favorite_count := t_fc,
        hashtags := extractEntityList t.entities_hashtags,
        user_mentions := extractEntityList t.entities_user_mentions,
        in_reply_to_user_id := t.in_reply_to_user_id,
        in_reply_to_screen_name := t.in_reply_to_screen_name,
        is_quote_status := t_qs,
        is_retweet := false,
        retweet_og_id := Value.nan,
        retweet_og_author_id := Value.nan,
        retweet_og_author_screen_name := Value.nan,
        retweet_og_author_name := Value.nan,
        retweet_og_date := Value.nan,
        retweet_og_full_text := Value.nan,
        retweet_og_retweet_count := Value.nan,
        retweet_og_favorite_count := Value.nan }

/-- The whole `for tweet in ...` loop: flatten each consumed status in
order; the first error aborts the run. -/
def flattenAll : List Tweet → Except String (List Row)
  | [] => .ok []
  | t :: ts => do
    let r ← flattenTweet t
    let rs ← flattenAll ts
    .ok (r :: rs)

/-- The 23 column names of the `data` dictionary, in insertion order
(lines 48-72). -/
def dataColumns : List String :=
  ["user_id", "screen_name", "name", "verified", "id", "created_at",
   "full_text", "retweet_count", "favorite_count", "hashtags",
   "user_mentions", "in_reply_to_user_id", "in_reply_to_screen_name",
   "is_quote_status", "is_retweet", "retweet_og_id",
   "retweet_og_author_id", "retweet_og_author_screen_name",
   "retweet_og_author_name", "retweet_og_date", "retweet_og_full_text",
   "retweet_og_retweet_count", "retweet_og_favorite_count"]

/-- The keyword arguments of one `api.search_tweets` cursor invocation,
plus the `.items` bound.  A `none` keyword is one the call site does not
pass. -/
structure SearchCall where
  q : Option String
  lang : Option String
  tweet_mode : Option String
  count : Option Nat
  items_limit : Nat
deriving DecidableEq, Repr

/-- Line 77: `tweepy.Cursor(api.search_tweets, q=query,
tweet_mode=tweet_mode, count=count).items(tweet_limit)`.  The function
parameter `lang` is not among the keywords passed. -/
def searchCallOf (query : Option String) (lang : String)
    (tweet_mode : String) (count : Nat) (tweet_limit : Nat) : SearchCall :=
  { q := query, lang := none, tweet_mode := some tweet_mode,
    count := some count, items_limit := tweet_limit }

/-- The output table: the column schema plus the rows in consumption
order — the `pd.DataFrame(data)` of line 163. -/
structure Frame where
  columns : List String
  rows : List Row
deriving DecidableEq, Repr

/-- `tweet_scraper` (lines 35-165): build the search call from the
caller-supplied parameters, consume at most `tweet_limit` raw statuses
from the resulting sequence, flatten each, and materialise the frame.
`api_search` stands for the external search client: the lazy sequence a
given call produces. -/
def tweet_scraper (query : Option String) (lang : String)
    (tweet_mode : String) (count : Nat) (tweet_limit : Nat)
    (api_search : SearchCall → List Tweet) : Except String Frame := do
  let consumed :=
    (api_search (searchCallOf query lang tweet_mode count tweet_limit)).take
      tweet_limit
  let rows ← flattenAll consumed
  .ok { columns := dataColumns, rows := rows }

/-! ### Concrete sample inputs and their flattenings -/

def sampleUser : TweetUser :=
  { id := some 1, screen_name := some "sdoody", name := some "Sean",
    verified := some false }

def sampleTweet : Tweet :=
  { user := some sampleUser, id := some 10,
    created_at := some "2021-01-01", full_text := some "hello",
    retweet_count := some 2, favorite_count := some 3,
    entities_hashtags := some [some "covid19", some "coronavirus"],
    entities_user_mentions := none,
    in_reply_to_user_id := none, in_reply_to_screen_name := none,
    is_quote_status := some false,
    json_has_retweeted_status := false, retweeted_status := none }

def sampleRow : Row :=
  { user_id := 1, screen_name := "sdoody", name := "Sean",
    verified := false, id := 10, created_at := "2021-01-01",
    full_text := "hello", retweet_count := 2, favorite_count := 3,
    hashtags := Value.strList ["covid19", "coronavirus"],
    user_mentions := Value.nan,
    in_reply_to_user_id := none, in_reply_to_screen_name := none,
    is_quote_status := false, is_retweet := false,
    retweet_og_id := Value.nan, retweet_og_author_id := Value.nan,
    retweet_og_author_screen_name := Value.nan,
    retweet_og_author_name := Value.nan, retweet_og_date := Value.nan,
    retweet_og_full_text := Value.nan,
    retweet_og_retweet_count := Value.nan,
    retweet_og_favorite_count := Value.nan }

def sampleOgUser : TweetUser :=
  { id := some 9, screen_name := some "orig_user", name := some "Orig",
    verified := some true }

def sampleOg : SubTweet :=
  { id := some 555, user := some sampleOgUser,
    created_at := some "2020-12-31", full_text := some "og text",
    retweet_count := some 7, favorite_count := some 8 }

def sampleRetweet : Tweet :=
  { user := some sampleUser, id := some 11,
    created_at := some "2021-01-02", full_text := some "RT",
    retweet_count := some 0, favorite_count := some 0,
    entities_hashtags := none,
    entities_user_mentions := some [some "orig_user"],
    in_reply_to_user_id := some 5, in_reply_to_screen_name := some "x",
    is_quote_status := some true,
    json_has_retweeted_status := true, retweeted_status := some sampleOg }

def sampleRetweetRow : Row :=
  { user_id := 1, screen_name := "sdoody", name := "Sean",
    verified := false, id := 11, created_at := "2021-01-02",
    full_text := "RT", retweet_count := 0, favorite_count := 0,
    hashtags := Value.nan,
    user_mentions := Value.strList ["orig_user"],
    in_reply_to_user_id := some 5,
    in_reply_to_screen_name := some "x",
    is_quote_status := true, is_retweet := true,
    retweet_og_id := Value.int 555, retweet_og_author_id := Value.int 9,
    retweet_og_author_screen_name := Value.str "orig_user",
    retweet_og_author_name := Value.str "Orig",
    retweet_og_date := Value.str "2020-12-31",
    retweet_og_full_text := Value.str "og text",
    retweet_og_retweet_count := Value.int 7,
    retweet_og_favorite_count := Value.int 8 }

/-- A status whose hashtag list has a malformed entry after one good
entry: reading entry 2 raises inside the `try`, the exception is
swallowed, and the already-collected `["covid19"]` survives. -/
def malformedTagTweet : Tweet :=
  { sampleTweet with
    entities_hashtags := some [some "covid19", none, some "x"] }

def malformedTagRow : Row :=
  { sampleRow with hashtags := Value.strList ["covid19"] }

/-- A status with the author sub-record absent. -/
def missingUserTweet : Tweet :=
  { sampleTweet with user := none }

/-- A status whose raw JSON contains the `"retweeted_status"` key while
the `retweeted_status` attribute is absent. -/
def keyNoSubTweet : Tweet :=
  { sampleTweet with
    json_has_retweeted_status := true,
    retweeted_status := none }

/-- Some required core scalar attribute of the status is absent: the
author sub-record or one of its four fields, or the post id, timestamp,
body text, or either count. -/
def RequiredMissing (t : Tweet) : Prop :=
  t.user = none ∨
  (∃ u, t.user = some u ∧
    (u.id = none ∨ u.screen_name = none ∨ u.name = none ∨
     u.verified = none)) ∨
  t.id = none ∨ t.created_at = none ∨ t.full_text = none ∨
  t.retweet_count = none ∨ t.favorite_count = none

/-- A concrete search client producing two statuses for any call. -/
def sampleSearch : SearchCall → List Tweet :=
  fun _ => [sampleTweet, sampleRetweet]

/-- The frame a run over `sampleSearch` produces. -/
def sampleFrame : Frame :=
  { columns := dataColumns, rows := [sampleRow, sampleRetweetRow] }


/-! ### Helper lemmas -/

theorem attr_bind_ok {α β : Type} {nm : String} {o : Option α}
    {f : α → Except String β} {b : β}
    (h : getAttr nm o >>= f = .ok b) : ∃ a, o = some a ∧ f a = .ok b := by
  cases o with
  | none => simp [getAttr, Bind.bind, Except.bind] at h
  | some a => exact ⟨a, rfl, h⟩

/-- Full inversion of a successful flattening: every required attribute
was present, every cell of the row is determined by the input, and the
retweet block went through exactly one of its two branches. -/
theorem flattenTweet_ok_inv {t : Tweet} {row : Row}
    (h : flattenTweet t = .ok row) :
    ∃ u u_id u_sn u_nm u_vf t_id t_ca t_ft t_rc t_fc t_qs,
      t.user = some u ∧ u.id = some u_id ∧ u.screen_name = some u_sn ∧
      u.name = some u_nm ∧ u.verified = some u_vf ∧
      t.id = some t_id ∧ t.created_at = some t_ca ∧
      t.full_text = some t_ft ∧ t.retweet_count = some t_rc ∧
      t.favorite_count = some t_fc ∧ t.is_quote_status = some t_qs ∧
      row.user_id = u_id ∧ row.screen_name = u_sn ∧ row.name = u_nm ∧
      row.verified = u_vf ∧ row.id = t_id ∧ row.created_at = t_ca ∧
      row.full_text = t_ft ∧ row.retweet_count = t_rc ∧
      row.favorite_count = t_fc ∧
      row.hashtags = extractEntityList t.entities_hashtags ∧
      row.user_mentions = extractEntityList t.entities_user_mentions ∧
      row.in_reply_to_user_id = t.in_reply_to_user_id ∧
      row.in_reply_to_screen_name = t.in_reply_to_screen_name ∧
      row.is_quote_status = t_qs ∧
      row.is_retweet = t.json_has_retweeted_status ∧
      ((t.json_has_retweeted_status = true ∧
        ∃ rs og_id og_u og_uid og_usn og_unm og_ca og_ft og_rc og_fc,
          t.retweeted_status = some rs ∧ rs.id = some og_id ∧
          rs.user = some og_u ∧ og_u.id = some og_uid ∧
          og_u.screen_name = some og_usn ∧ og_u.name = some og_unm ∧
          rs.created_at = some og_ca ∧ rs.full_text = some og_ft ∧
          rs.retweet_count = some og_rc ∧ rs.favorite_count = some og_fc ∧
          row.retweet_og_id = Value.int og_id ∧
          row.retweet_og_author_id = Value.int og_uid ∧
          row.retweet_og_author_screen_name = Value.str og_usn ∧
          row.retweet_og_author_name = Value.str og_unm ∧
          row.retweet_og_date = Value.str og_ca ∧
          row.retweet_og_full_text = Value.str og_ft ∧
          row.retweet_og_retweet_count = Value.int og_rc ∧
          row.retweet_og_favorite_count = Value.int og_fc) ∨
       (t.json_has_retweeted_status = false ∧
        row.retweet_og_id = Value.nan ∧
        row.retweet_og_author_id = Value.nan ∧
        row.retweet_og_author_screen_name = Value.nan ∧
        row.retweet_og_author_name = Value.nan ∧
        row.retweet_og_date = Value.nan ∧
        row.retweet_og_full_text = Value.nan ∧
        row.retweet_og_retweet_count = Value.nan ∧
        row.retweet_og_favorite_count = Value.nan)) := by
  unfold flattenTweet at h
  obtain ⟨u, hu, h⟩ := attr_bind_ok h
  obtain ⟨u_id, hu_id, h⟩ := attr_bind_ok h
  obtain ⟨u_sn, hu_sn, h⟩ := attr_bind_ok h
  obtain ⟨u_nm, hu_nm, h⟩ := attr_bind_ok h
  obtain ⟨u_vf, hu_vf, h⟩ := attr_bind_ok h
  obtain ⟨t_id, ht_id, h⟩ := attr_bind_ok h
  obtain ⟨t_ca, ht_ca, h⟩ := attr_bind_ok h
  obtain ⟨t_ft, ht_ft, h⟩ := attr_bind_ok h
  obtain ⟨t_rc, ht_rc, h⟩ := attr_bind_ok h
  obtain ⟨t_fc, ht_fc, h⟩ := attr_bind_ok h
  obtain ⟨t_qs, ht_qs, h⟩ := attr_bind_ok h
  cases hk : t.json_has_retweeted_status with
  | true =>
    rw [hk] at h
    rw [if_pos rfl] at h
    obtain ⟨rs, hrs, h⟩ := attr_bind_ok h
    obtain ⟨og_id, hog_id, h⟩ := attr_bind_ok h
    obtain ⟨og_u, hog_u, h⟩ := attr_bind_ok h
    obtain ⟨og_uid, hog_uid, h⟩ := attr_bind_ok h
    obtain ⟨og_usn, hog_usn, h⟩ := attr_bind_ok h
    obtain ⟨og_unm, hog_unm, h⟩ := attr_bind_ok h
    obtain ⟨og_ca, hog_ca, h⟩ := attr_bind_ok h
    obtain ⟨og_ft, hog_ft, h⟩ := attr_bind_ok h
    obtain ⟨og_rc, hog_rc, h⟩ := attr_bind_ok h
    obtain ⟨og_fc, hog_fc, h⟩ := attr_bind_ok h
    simp only [pure, Except.pure, Except.ok.injEq] at h
    subst h
    exact ⟨u, u_id, u_sn, u_nm, u_vf, t_id, t_ca, t_ft, t_rc, t_fc, t_qs,
      hu, hu_id, hu_sn, hu_nm, hu_vf, ht_id, ht_ca, ht_ft, ht_rc, ht_fc,
      ht_qs, rfl, rfl, rfl, rfl, rfl, rfl, rfl, rfl, rfl, rfl, rfl, rfl,
      rfl, rfl, rfl,
      Or.inl ⟨rfl, rs, og_id, og_u, og_uid, og_usn, og_unm, og_ca, og_ft,
        og_rc, og_fc, hrs, hog_id, hog_u, hog_uid, hog_usn, hog_unm,
        hog_ca, hog_ft, hog_rc, hog_fc,
        rfl, rfl, rfl, rfl, rfl, rfl, rfl, rfl⟩⟩
  | false =>
    rw [hk] at h
    rw [if_neg (by decide)] at h
    simp only [pure, Except.pure, Except.ok.injEq] at h
    subst h
    exact ⟨u, u_id, u_sn, u_nm, u_vf, t_id, t_ca, t_ft, t_rc, t_fc, t_qs,
      hu, hu_id, hu_sn, hu_nm, hu_vf, ht_id, ht_ca, ht_ft, ht_rc, ht_fc,
      ht_qs, rfl, rfl, rfl, rfl, rfl, rfl, rfl, rfl, rfl, rfl, rfl, rfl,
      rfl, rfl, rfl,
      Or.inr ⟨rfl, rfl, rfl, rfl, rfl, rfl, rfl, rfl, rfl⟩⟩

theorem except_bind_ok {α β : Type} {x : Except String α}
    {f : α → Except String β} {b : β}
    (h : x >>= f = .ok b) : ∃ a, x = .ok a ∧ f a = .ok b := by
  cases x with
  | error e => simp [Bind.bind, Except.bind] at h
  | ok a => exact ⟨a, rfl, h⟩

/-- The rows of a successful run are the flattenings of the consumed
statuses, position by position. -/
theorem flattenAll_get? {ts : List Tweet} {rs : List Row}
    (h : flattenAll ts = .ok rs) :
    ∀ i : Nat, rs[i]? = (ts[i]?).bind fun t => (flattenTweet t).toOption := by
  induction ts generalizing rs with
  | nil =>
    rw [flattenAll] at h
    simp only [Except.ok.injEq] at h
    subst h
    intro i
    simp
  | cons t ts ih =>
    rw [flattenAll] at h
    obtain ⟨r, hr, h⟩ := except_bind_ok h
    obtain ⟨rs', hrs', h⟩ := except_bind_ok h
    simp only [Except.ok.injEq] at h
    subst h
    intro i
    cases i with
    | zero => simp [hr, Except.toOption]
    | succ n => simpa using ih hrs' n

/-- A successful run has exactly one row per consumed status. -/
theorem flattenAll_length {ts : List Tweet} {rs : List Row}
    (h : flattenAll ts = .ok rs) : rs.length = ts.length := by
  induction ts generalizing rs with
  | nil =>
    rw [flattenAll] at h
    simp only [Except.ok.injEq] at h
    subst h
    rfl
  | cons t ts ih =>
    rw [flattenAll] at h
    obtain ⟨r, hr, h⟩ := except_bind_ok h
    obtain ⟨rs', hrs', h⟩ := except_bind_ok h
    simp only [Except.ok.injEq] at h
    subst h
    simp [ih hrs']

/-- In a successful run, every consumed status flattened successfully. -/
theorem flattenAll_ok_of_mem {ts : List Tweet} {rs : List Row} {t : Tweet}
    (h : flattenAll ts = .ok rs) (hm : t ∈ ts) :
    ∃ r, flattenTweet t = .ok r := by
  induction ts generalizing rs with
  | nil => cases hm
  | cons t0 ts ih =>
    rw [flattenAll] at h
    obtain ⟨r, hr, h⟩ := except_bind_ok h
    obtain ⟨rs', hrs', h⟩ := except_bind_ok h
    cases hm with
    | head => exact ⟨r, hr⟩
    | tail _ hm => exact ih hrs' hm

/-- Inversion of a successful `tweet_scraper` run: the rows are the
flattening of the consumed prefix and the schema is the 23 columns. -/
theorem tweet_scraper_ok_inv {query : Option String}
    {lang tweet_mode : String} {count tweet_limit : Nat}
    {api_search : SearchCall → List Tweet} {f : Frame}
    (h : tweet_scraper query lang tweet_mode count tweet_limit api_search =
      .ok f) :
    flattenAll
        ((api_search
          (searchCallOf query lang tweet_mode count tweet_limit)).take
            tweet_limit) = .ok f.rows ∧
      f.columns = dataColumns := by
  unfold tweet_scraper at h
  obtain ⟨rows, hrows, h⟩ := except_bind_ok h
  simp only [Except.ok.injEq] at h
  subst h
  exact ⟨hrows, rfl⟩

/-- The value recorded for an annotation list is the empty-marker or a
non-empty list of strings, never an empty list. -/
theorem extractEntityList_shape (o : Option (List (Option String))) :
    extractEntityList o = Value.nan ∨
      ∃ l, l ≠ [] ∧ extractEntityList o = Value.strList l := by
  cases o with
  | none => left; rfl
  | some l =>
    cases hc : collectTexts l with
    | nil => left; simp [extractEntityList, hc]
    | cons a as =>
      right
      exact ⟨a :: as, by simp, by simp [extractEntityList, hc]⟩

/-! ### Claim theorems -/

/-- Claim C1: for every raw status that carries an original-post
sub-record (the `"retweeted_status"` key is in its raw JSON and the
sub-record attribute is populated), a successful flattening sets
`is_retweet` to `true` and copies all eight original-post fields —
id, author id, author handle, author name, timestamp, body,
reshare-count, favorite-count — verbatim from that sub-record. -/
theorem retweet_fields_copied {t : Tweet} {sub : SubTweet} {row : Row}
    (hk : t.json_has_retweeted_status = true)
    (hs : t.retweeted_status = some sub)
    (h : flattenTweet t = .ok row) :
    row.is_retweet = true ∧
    sub.id.map Value.int = some row.retweet_og_id ∧
    (sub.user.bind TweetUser.id).map Value.int =
      some row.retweet_og_author_id ∧
    (sub.user.bind TweetUser.screen_name).map Value.str =
      some row.retweet_og_author_screen_name ∧
    (sub.user.bind TweetUser.name).map Value.str =
      some row.retweet_og_author_name ∧
    sub.created_at.map Value.str = some row.retweet_og_date ∧
    sub.full_text.map Value.str = some row.retweet_og_full_text ∧
    sub.retweet_count.map Value.int =
      some row.retweet_og_retweet_count ∧
    sub.favorite_count.map Value.int =
      some row.retweet_og_favorite_count := by
  obtain ⟨u, u_id, u_sn, u_nm, u_vf, t_id, t_ca, t_ft, t_rc, t_fc, t_qs,
    hu, hu_id, hu_sn, hu_nm, hu_vf, ht_id, ht_ca, ht_ft, ht_rc, ht_fc,
    ht_qs, _, _, _, _, _, _, _, _, _, _, _, _, _, _, hir, hbr⟩ :=
    flattenTweet_ok_inv h
  rcases hbr with ⟨hkt, rs, og_id, og_u, og_uid, og_usn, og_unm, og_ca,
    og_ft, og_rc, og_fc, hrs, hog_id, hog_u, hog_uid, hog_usn, hog_unm,
    hog_ca, hog_ft, hog_rc, hog_fc, r1, r2, r3, r4, r5, r6, r7, r8⟩ |
    ⟨hkf, _⟩
  · rw [hs] at hrs
    injection hrs with hsub
    subst hsub
    refine ⟨hir.trans hkt, ?_, ?_, ?_, ?_, ?_, ?_, ?_, ?_⟩
    · rw [hog_id, r1]; rfl
    · simp [hog_u, hog_uid, r2]
    · simp [hog_u, hog_usn, r3]
    · simp [hog_u, hog_unm, r4]
    · rw [hog_ca, r5]; rfl
    · rw [hog_ft, r6]; rfl
    · rw [hog_rc, r7]; rfl
    · rw [hog_fc, r8]; rfl
  · rw [hk] at hkf
    exact Bool.noConfusion hkf

/-- Witness for C1 at a concrete retweet. -/
theorem retweet_fields_copied_witness :
    sampleRetweet.json_has_retweeted_status = true ∧
    sampleRetweet.retweeted_status = some sampleOg ∧
    flattenTweet sampleRetweet = .ok sampleRetweetRow ∧
    (sampleRetweetRow.is_retweet = true ∧
     sampleOg.id.map Value.int = some sampleRetweetRow.retweet_og_id ∧
     (sampleOg.user.bind TweetUser.id).map Value.int =
       some sampleRetweetRow.retweet_og_author_id ∧
     (sampleOg.user.bind TweetUser.screen_name).map Value.str =
       some sampleRetweetRow.retweet_og_author_screen_name ∧
     (sampleOg.user.bind TweetUser.name).map Value.str =
       some sampleRetweetRow.retweet_og_author_name ∧
     sampleOg.created_at.map Value.str =
       some sampleRetweetRow.retweet_og_date ∧
     sampleOg.full_text.map Value.str =
       some sampleRetweetRow.retweet_og_full_text ∧
     sampleOg.retweet_count.map Value.int =
       some sampleRetweetRow.retweet_og_retweet_count ∧
     sampleOg.favorite_count.map Value.int =
       some sampleRetweetRow.retweet_og_favorite_count) :=
  ⟨rfl, rfl, rfl,
   retweet_fields_copied
     (show sampleRetweet.json_has_retweeted_status = true from rfl)
     (show sampleRetweet.retweeted_status = some sampleOg from rfl)
     (show flattenTweet sampleRetweet = .ok sampleRetweetRow from rfl)⟩

/-- Claim C2: for every raw status whose raw JSON lacks the
`"retweeted_status"` key, a successful flattening sets `is_retweet` to
`false` and all eight original-post cells to the empty-marker. -/
theorem non_retweet_all_nan {t : Tweet} {row : Row}
    (hk : t.json_has_retweeted_status = false)
    (h : flattenTweet t = .ok row) :
    row.is_retweet = false ∧
    row.retweet_og_id = Value.nan ∧
    row.retweet_og_author_id = Value.nan ∧
    row.retweet_og_author_screen_name = Value.nan ∧
    row.retweet_og_author_name = Value.nan ∧
    row.retweet_og_date = Value.nan ∧
    row.retweet_og_full_text = Value.nan ∧
    row.retweet_og_retweet_count = Value.nan ∧
    row.retweet_og_favorite_count = Value.nan := by
  obtain ⟨u, u_id, u_sn, u_nm, u_vf, t_id, t_ca, t_ft, t_rc, t_fc, t_qs,
    hu, hu_id, hu_sn, hu_nm, hu_vf, ht_id, ht_ca, ht_ft, ht_rc, ht_fc,
    ht_qs, _, _, _, _, _, _, _, _, _, _, _, _, _, _, hir, hbr⟩ :=
    flattenTweet_ok_inv h
  rcases hbr with ⟨hkt, _⟩ |
    ⟨hkf, n1, n2, n3, n4, n5, n6, n7, n8⟩
  · rw [hk] at hkt
    exact Bool.noConfusion hkt
  · exact ⟨hir.trans hk, n1, n2, n3, n4, n5, n6, n7, n8⟩

/-- Witness for C2 at a concrete non-retweet. -/
theorem non_retweet_all_nan_witness :
    sampleTweet.json_has_retweeted_status = false ∧
    flattenTweet sampleTweet = .ok sampleRow ∧
    (sampleRow.is_retweet = false ∧
     sampleRow.retweet_og_id = Value.nan ∧
     sampleRow.retweet_og_author_id = Value.nan ∧
     sampleRow.retweet_og_author_screen_name = Value.nan ∧
     sampleRow.retweet_og_author_name = Value.nan ∧
     sampleRow.retweet_og_date = Value.nan ∧
     sampleRow.retweet_og_full_text = Value.nan ∧
     sampleRow.retweet_og_retweet_count = Value.nan ∧
     sampleRow.retweet_og_favorite_count = Value.nan) :=
  ⟨rfl, rfl,
   non_retweet_all_nan
     (show sampleTweet.json_has_retweeted_status = false from rfl)
     (show flattenTweet sampleTweet = .ok sampleRow from rfl)⟩

/-- Claim C3 (refuted as stated — the code drops the language): the
search cursor of line 77 is built with the caller-supplied query,
per-page count and total limit, but the `lang` parameter is never
passed to the search operation, so the call's language keyword is
`none`, not the caller's language. -/
theorem lang_not_forwarded (query : Option String)
    (lang tweet_mode : String) (count tweet_limit : Nat) :
    (searchCallOf query lang tweet_mode count tweet_limit).q = query ∧
    (searchCallOf query lang tweet_mode count tweet_limit).tweet_mode =
      some tweet_mode ∧
    (searchCallOf query lang tweet_mode count tweet_limit).count =
      some count ∧
    (searchCallOf query lang tweet_mode count
      tweet_limit).items_limit = tweet_limit ∧
    (searchCallOf query lang tweet_mode count tweet_limit).lang =
      none ∧
    (searchCallOf query lang tweet_mode count tweet_limit).lang ≠
      some lang := by
  refine ⟨rfl, rfl, rfl, rfl, rfl, ?_⟩
  simp [searchCallOf]

/-- Claim C5: the tag cell of a successfully flattened row is the
empty-marker or a non-empty list of strings, never an empty list; the
same holds for the mention cell. -/
theorem tag_field_never_empty_list {t : Tweet} {row : Row}
    (h : flattenTweet t = .ok row) :
    (row.hashtags = Value.nan ∨
      ∃ l, l ≠ [] ∧ row.hashtags = Value.strList l) ∧
    (row.user_mentions = Value.nan ∨
      ∃ l, l ≠ [] ∧ row.user_mentions = Value.strList l) := by
  obtain ⟨u, u_id, u_sn, u_nm, u_vf, t_id, t_ca, t_ft, t_rc, t_fc, t_qs,
    hu, hu_id, hu_sn, hu_nm, hu_vf, ht_id, ht_ca, ht_ft, ht_rc, ht_fc,
    ht_qs, _, _, _, _, _, _, _, _, _, hht, hum, _, _, _, _, _⟩ :=
    flattenTweet_ok_inv h
  constructor
  · rw [hht]; exact extractEntityList_shape _
  · rw [hum]; exact extractEntityList_shape _

/-- Witness for C5 at a concrete status. -/
theorem tag_field_never_empty_list_witness :
    flattenTweet sampleTweet = .ok sampleRow ∧
    ((sampleRow.hashtags = Value.nan ∨
       ∃ l, l ≠ [] ∧ sampleRow.hashtags = Value.strList l) ∧
     (sampleRow.user_mentions = Value.nan ∨
       ∃ l, l ≠ [] ∧ sampleRow.user_mentions = Value.strList l)) :=
  ⟨rfl, tag_field_never_empty_list
     (show flattenTweet sampleTweet = .ok sampleRow from rfl)⟩

/-- Claim C6: a successful run has exactly one row per consumed raw
status, in consumption order. -/
theorem rows_match_consumed {query : Option String}
    {lang tweet_mode : String} {count tweet_limit : Nat}
    {api_search : SearchCall → List Tweet} {f : Frame}
    (h : tweet_scraper query lang tweet_mode count tweet_limit
      api_search = .ok f) :
    f.rows.length =
      ((api_search (searchCallOf query lang tweet_mode count
        tweet_limit)).take tweet_limit).length ∧
    ∀ i : Nat,
      f.rows[i]? =
        (((api_search (searchCallOf query lang tweet_mode count
          tweet_limit)).take tweet_limit)[i]?).bind
          fun t => (flattenTweet t).toOption := by
  obtain ⟨hall, _⟩ := tweet_scraper_ok_inv h
  exact ⟨flattenAll_length hall, flattenAll_get? hall⟩

/-- Witness for C6 on a concrete two-status run. -/
theorem rows_match_consumed_witness :
    tweet_scraper (some "q") "en" "extended" 100 1000 sampleSearch =
      .ok sampleFrame ∧
    (sampleFrame.rows.length =
      ((sampleSearch (searchCallOf (some "q") "en" "extended" 100
        1000)).take 1000).length ∧
    ∀ i : Nat,
      sampleFrame.rows[i]? =
        (((sampleSearch (searchCallOf (some "q") "en" "extended" 100
          1000)).take 1000)[i]?).bind
          fun t => (flattenTweet t).toOption) :=
  ⟨rfl, rows_match_consumed
     (show tweet_scraper (some "q") "en" "extended" 100 1000
       sampleSearch = .ok sampleFrame from rfl)⟩

/-- Claim C7: with a total limit of zero, the run consumes no raw
status and returns the valid empty table that still carries the full
23-column schema. -/
theorem zero_limit_empty_frame (query : Option String)
    (lang tweet_mode : String) (count : Nat)
    (api_search : SearchCall → List Tweet) :
    tweet_scraper query lang tweet_mode count 0 api_search =
      .ok { columns := dataColumns, rows := [] } ∧
    (api_search (searchCallOf query lang tweet_mode count 0)).take 0 =
      ([] : List Tweet) ∧
    dataColumns.length = 23 :=
  ⟨rfl, rfl, rfl⟩

/-- Claim C8: flattening is a pure per-record transform — within one
successful run, equal raw statuses at two positions flatten to equal
rows. -/
theorem flatten_deterministic {posts : List Tweet} {rows : List Row}
    (h : flattenAll posts = .ok rows) (i j : Nat)
    (hij : posts[i]? = posts[j]?) :
    rows[i]? = rows[j]? := by
  rw [flattenAll_get? h i, flattenAll_get? h j, hij]

/-- Witness for C8: the same status consumed twice yields the same row
twice. -/
theorem flatten_deterministic_witness :
    flattenAll [sampleTweet, sampleTweet] =
      .ok [sampleRow, sampleRow] ∧
    [sampleTweet, sampleTweet][0]? = [sampleTweet, sampleTweet][1]? ∧
    [sampleRow, sampleRow][0]? = [sampleRow, sampleRow][1]? :=
  ⟨rfl, rfl,
   flatten_deterministic
     (show flattenAll [sampleTweet, sampleTweet] =
       .ok [sampleRow, sampleRow] from rfl) 0 1
     (show [sampleTweet, sampleTweet][0]? =
       [sampleTweet, sampleTweet][1]? from rfl)⟩

/-- Case analysis of the recorded annotation value: missing list or
empty collected prefix gives the empty-marker; a non-empty collected
prefix is recorded as that list. -/
theorem extractEntityList_cases (e : Option (List (Option String))) :
    (e = none → extractEntityList e = Value.nan) ∧
    (∀ l, e = some l → collectTexts l = [] →
      extractEntityList e = Value.nan) ∧
    (∀ l, e = some l → collectTexts l ≠ [] →
      extractEntityList e = Value.strList (collectTexts l)) := by
  refine ⟨?_, ?_, ?_⟩
  · intro he; subst he; rfl
  · intro l he hc; subst he; simp [extractEntityList, hc]
  · intro l he hc
    subst he
    simp [extractEntityList, List.length_eq_zero, hc]

/-- Claim C9: if a required core scalar attribute is absent, flattening
that record errors; the error propagates — any run that consumes the
record produces no output table. -/
theorem missing_required_aborts {t : Tweet} (h : RequiredMissing t) :
    (∃ e, flattenTweet t = .error e) ∧
    ∀ (query : Option String) (lang tweet_mode : String)
      (count tweet_limit : Nat) (api_search : SearchCall → List Tweet)
      (f : Frame),
      t ∈ (api_search (searchCallOf query lang tweet_mode count
        tweet_limit)).take tweet_limit →
      tweet_scraper query lang tweet_mode count tweet_limit
        api_search ≠ .ok f := by
  have herr : ∃ e, flattenTweet t = .error e := by
    cases hft : flattenTweet t with
    | error e => exact ⟨e, rfl⟩
    | ok row =>
      exfalso
      obtain ⟨u, u_id, u_sn, u_nm, u_vf, t_id, t_ca, t_ft, t_rc, t_fc,
        t_qs, hu, hu_id, hu_sn, hu_nm, hu_vf, ht_id, ht_ca, ht_ft,
        ht_rc, ht_fc, ht_qs, _, _, _, _, _, _, _, _, _, _, _, _, _, _,
        _, _⟩ := flattenTweet_ok_inv hft
      rcases h with h | ⟨u', hu', h | h | h | h⟩ | h | h | h | h | h <;>
        simp_all
  refine ⟨herr, ?_⟩
  intro query lang tweet_mode count tweet_limit api_search f hm hok
  obtain ⟨hall, _⟩ := tweet_scraper_ok_inv hok
  obtain ⟨r, hr⟩ := flattenAll_ok_of_mem hall hm
  obtain ⟨e, he⟩ := herr
  rw [he] at hr
  exact Except.noConfusion hr

/-- Witness for C9 at a status with the author sub-record absent. -/
theorem missing_required_aborts_witness :
    RequiredMissing missingUserTweet ∧
    ((∃ e, flattenTweet missingUserTweet = .error e) ∧
     ∀ (query : Option String) (lang tweet_mode : String)
       (count tweet_limit : Nat) (api_search : SearchCall → List Tweet)
       (f : Frame),
       missingUserTweet ∈ (api_search (searchCallOf query lang
         tweet_mode count tweet_limit)).take tweet_limit →
       tweet_scraper query lang tweet_mode count tweet_limit
         api_search ≠ .ok f) :=
  ⟨Or.inl rfl, missing_required_aborts (Or.inl rfl)⟩

/-- Claim C10: when the raw JSON contains the `"retweeted_status"` key,
classification follows the key alone: a successful flattening always
reports a repost, and if the sub-record attribute is unpopulated the
record flattens to a hard failure instead of a non-repost row. -/
theorem retweet_key_classifies {t : Tweet}
    (hk : t.json_has_retweeted_status = true) :
    (t.retweeted_status = none → ∃ e, flattenTweet t = .error e) ∧
    (∀ row, flattenTweet t = .ok row → row.is_retweet = true) := by
  constructor
  · intro hnone
    cases hft : flattenTweet t with
    | error e => exact ⟨e, rfl⟩
    | ok row =>
      exfalso
      obtain ⟨u, u_id, u_sn, u_nm, u_vf, t_id, t_ca, t_ft, t_rc, t_fc,
        t_qs, hu, hu_id, hu_sn, hu_nm, hu_vf, ht_id, ht_ca, ht_ft,
        ht_rc, ht_fc, ht_qs, _, _, _, _, _, _, _, _, _, _, _, _, _, _,
        _, hbr⟩ := flattenTweet_ok_inv hft
      rcases hbr with ⟨hkt, rs, og_id, og_u, og_uid, og_usn, og_unm,
        og_ca, og_ft, og_rc, og_fc, hrs, hrest⟩ | ⟨hkf, hrest⟩
      · rw [hnone] at hrs
        exact Option.noConfusion hrs
      · rw [hk] at hkf
        exact Bool.noConfusion hkf
  · intro row hft
    obtain ⟨u, u_id, u_sn, u_nm, u_vf, t_id, t_ca, t_ft, t_rc, t_fc,
      t_qs, hu, hu_id, hu_sn, hu_nm, hu_vf, ht_id, ht_ca, ht_ft, ht_rc,
      ht_fc, ht_qs, _, _, _, _, _, _, _, _, _, _, _, _, _, _, hir,
      _⟩ := flattenTweet_ok_inv hft
    exact hir.trans hk

/-- Witness for C10: a present key with an unpopulated sub-record is a
hard failure. -/
theorem retweet_key_classifies_witness :
    keyNoSubTweet.json_has_retweeted_status = true ∧
    keyNoSubTweet.retweeted_status = none ∧
    (∃ e, flattenTweet keyNoSubTweet = .error e) :=
  ⟨rfl, rfl,
   (retweet_key_classifies
     (show keyNoSubTweet.json_has_retweeted_status = true from
       rfl)).1 rfl⟩

/-- Counterexample to claim C4 as stated: a status whose hashtag list
has a malformed entry after one well-formed entry.  Reading the list
fails (at entry 2), yet the recorded cell is the non-empty collected
prefix `["covid19"]`, not the empty-marker. -/
theorem tag_failure_keeps_prefix_cex :
    malformedTagTweet.entities_hashtags =
      some [some "covid19", none, some "x"] ∧
    flattenTweet malformedTagTweet = .ok malformedTagRow ∧
    malformedTagRow.hashtags = Value.strList ["covid19"] ∧
    malformedTagRow.hashtags ≠ Value.nan :=
  ⟨rfl, rfl, rfl, by decide⟩

/-- Claim C4 (amended): a failure to read the tag annotation list is
recovered locally and never propagated — flattening still succeeds
whatever the annotation fields hold; when the list is missing the cell
is the empty-marker, and when an entry read fails the cell holds the
entry texts collected before the failure, the empty-marker if that
prefix is empty; the same policy holds for mention extraction. -/
theorem entity_failure_recovered {t : Tweet} {row : Row}
    (h : flattenTweet t = .ok row)
    (e1 e2 : Option (List (Option String))) :
    ∃ row2,
      flattenTweet
          { t with
            entities_hashtags := e1,
            entities_user_mentions := e2 } = .ok row2 ∧
      row2.hashtags = extractEntityList e1 ∧
      row2.user_mentions = extractEntityList e2 ∧
      (e1 = none → row2.hashtags = Value.nan) ∧
      (∀ l, e1 = some l → collectTexts l = [] →
        row2.hashtags = Value.nan) ∧
      (∀ l, e1 = some l → collectTexts l ≠ [] →
        row2.hashtags = Value.strList (collectTexts l)) ∧
      (e2 = none → row2.user_mentions = Value.nan) ∧
      (∀ l, e2 = some l → collectTexts l = [] →
        row2.user_mentions = Value.nan) ∧
      (∀ l, e2 = some l → collectTexts l ≠ [] →
        row2.user_mentions = Value.strList (collectTexts l)) := by
  obtain ⟨u, u_id, u_sn, u_nm, u_vf, t_id, t_ca, t_ft, t_rc, t_fc, t_qs,
    hu, hu_id, hu_sn, hu_nm, hu_vf, ht_id, ht_ca, ht_ft, ht_rc, ht_fc,
    ht_qs, _, _, _, _, _, _, _, _, _, _, _, _, _, _, _, hbr⟩ :=
    flattenTweet_ok_inv h
  obtain ⟨fu, fid, fca, fft, frc, ffc, feh, fem, firu, firs, fqs, fjk,
    frst⟩ := t
  subst hu ht_id ht_ca ht_ft ht_rc ht_fc ht_qs
  obtain ⟨gid, gsn, gnm, gvf⟩ := u
  replace hu_id : gid = some u_id := hu_id
  replace hu_sn : gsn = some u_sn := hu_sn
  replace hu_nm : gnm = some u_nm := hu_nm
  replace hu_vf : gvf = some u_vf := hu_vf
  subst hu_id hu_sn hu_nm hu_vf
  rcases hbr with ⟨hkt, rs, og_id, og_u, og_uid, og_usn, og_unm, og_ca,
    og_ft, og_rc, og_fc, hrs, hog_id, hog_u, hog_uid, hog_usn, hog_unm,
    hog_ca, hog_ft, hog_rc, hog_fc, hrest⟩ | ⟨hkf, hrest⟩
  · replace hkt : fjk = true := hkt
    subst hkt
    replace hrs : frst = some rs := hrs
    subst hrs
    obtain ⟨sid, su, sca, sft, src, sfc⟩ := rs
    replace hog_id : sid = some og_id := hog_id
    replace hog_u : su = some og_u := hog_u
    replace hog_ca : sca = some og_ca := hog_ca
    replace hog_ft : sft = some og_ft := hog_ft
    replace hog_rc : src = some og_rc := hog_rc
    replace hog_fc : sfc = some og_fc := hog_fc
    subst hog_id hog_u hog_ca hog_ft hog_rc hog_fc
    obtain ⟨oid, osn, onm, ovf⟩ := og_u
    replace hog_uid : oid = some og_uid := hog_uid
    replace hog_usn : osn = some og_usn := hog_usn
    replace hog_unm : onm = some og_unm := hog_unm
    subst hog_uid hog_usn hog_unm
    exact ⟨_, rfl, rfl, rfl,
      (extractEntityList_cases e1).1,
      (extractEntityList_cases e1).2.1,
      (extractEntityList_cases e1).2.2,
      (extractEntityList_cases e2).1,
      (extractEntityList_cases e2).2.1,
      (extractEntityList_cases e2).2.2⟩
  · replace hkf : fjk = false := hkf
    subst hkf
    exact ⟨_, rfl, rfl, rfl,
      (extractEntityList_cases e1).1,
      (extractEntityList_cases e1).2.1,
      (extractEntityList_cases e1).2.2,
      (extractEntityList_cases e2).1,
      (extractEntityList_cases e2).2.1,
      (extractEntityList_cases e2).2.2⟩

/-- Witness for the amended C4 at a concrete status, substituting a
hashtag list whose first entry is malformed and a missing mention
list. -/
theorem entity_failure_recovered_witness :
    flattenTweet sampleTweet = .ok sampleRow ∧
    (∃ row2,
      flattenTweet
          { sampleTweet with
            entities_hashtags := some [none, some "late"],
            entities_user_mentions := none } = .ok row2 ∧
      row2.hashtags = extractEntityList (some [none, some "late"]) ∧
      row2.user_mentions = extractEntityList none ∧
      (some [none, some "late"] =
          (none : Option (List (Option String))) →
        row2.hashtags = Value.nan) ∧
      (∀ l, some [none, some "late"] = some l → collectTexts l = [] →
        row2.hashtags = Value.nan) ∧
      (∀ l, some [none, some "late"] = some l → collectTexts l ≠ [] →
        row2.hashtags = Value.strList (collectTexts l)) ∧
      ((none : Option (List (Option String))) = none →
        row2.user_mentions = Value.nan) ∧
      (∀ l, (none : Option (List (Option String))) = some l →
        collectTexts l = [] → row2.user_mentions = Value.nan) ∧
      (∀ l, (none : Option (List (Option String))) = some l →
        collectTexts l ≠ [] →
        row2.user_mentions = Value.strList (collectTexts l))) :=
  ⟨rfl, entity_failure_recovered
    (show flattenTweet sampleTweet = .ok sampleRow from rfl)
    (some [none, some "late"]) none⟩
